import Mathlib

/-!
Verification of the user-level Click driver (`src/userlevel/click.cc`) and the
`SetTXPower` element handler (`src/elements/wifi/settxpower.cc`).

The development shallowly embeds the driver's control logic: the hot-swap
state machine (`parse_configuration`, `hotconfig_handler`, `hotswap_hook`),
signal installation, the read-handler invocation path (`call_read_handler`,
`expand_handler_elements`, `call_read_handlers`), the exit-handler dispatch in
`main`, and the `SetTXPower` write handler.  Library functions that are not
part of the sources under study (`Router::use`, `glob_match`, the `confparse`
parsers) are either modelled from the specification or abstracted into
explicit parameters, as noted on each definition.
-/

/-- Routers are identified by an index into the driver's router records. -/
abbrev RouterId : Type := Nat

/-- Observable per-router state: reference count, whether `activate` has run,
and whether the router has been torn down (deleted). -/
structure RouterRec where
  useCount : Int
  active : Bool
  destroyed : Bool

/-- Modelled from the spec: `Router::use` (router.hh is not under `src/`)
increments the router's use count. -/
def routerUse (id : RouterId) (rs : RouterId → RouterRec) : RouterId → RouterRec :=
  fun j => if j = id then { rs id with useCount := (rs id).useCount + 1 } else rs j

/-- Modelled from the spec: `Router::unuse` (router.hh is not under `src/`)
decrements the use count and tears the router down when the count reaches
zero. -/
def routerUnuse (id : RouterId) (rs : RouterId → RouterRec) : RouterId → RouterRec :=
  fun j =>
    if j = id then
      { rs id with
        useCount := (rs id).useCount - 1,
        destroyed := (rs id).destroyed || ((rs id).useCount - 1 = 0 : Bool) }
    else rs j

/-- Modelled from the spec: `Router::activate` (router.hh is not under `src/`)
publishes the router so that its tasks may run. -/
def routerActivate (id : RouterId) (rs : RouterId → RouterRec) : RouterId → RouterRec :=
  fun j => if j = id then { rs id with active := true } else rs j

/-- Disposition of a process signal. -/
inductive SigAction where
  | sigDefault
  | sigIgnore
  | stopHandler
deriving DecidableEq

/-- The dispositions of the three signals `click.cc` manipulates. -/
structure SigState where
  sigint : SigAction
  sigterm : SigAction
  sigpipe : SigAction
deriving DecidableEq

/-- Signal installation block of `parse_configuration` (click.cc lines
305-316): executed only when the call is not a hot-swap parse. -/
def install_signals (hotswap : Bool) (sigs : SigState) : SigState :=
  if hotswap then sigs
  else { sigint := SigAction.stopHandler, sigterm := SigAction.stopHandler,
         sigpipe := SigAction.sigIgnore }

/-- Modelled from the spec: `Router::STOP_RUNCOUNT` (router.hh is not under
`src/`) is the sentinel runcount value that cannot be restored by
increment. -/
def STOP_RUNCOUNT : Int := -2147483648

/-- Embedding of `stop_signal_handler` (click.cc lines 141-151): before the driver starts
the signal is re-raised with the default disposition; afterwards the current
router's runcount is set to `STOP_RUNCOUNT`.  Returns the new runcount and
whether the signal was re-raised. -/
def stop_signal_handler (started : Bool) (runcount : Int) : Int × Bool :=
  if started then (STOP_RUNCOUNT, false) else (runcount, true)

/-- The driver's hot-swap globals (click.cc lines 136, 257-260): the current
`router`, the staged `hotswap_router`, whether `hotswap_task` is scheduled,
and the records of all routers. -/
structure HotswapState where
  router : RouterId
  hotswap_router : Option RouterId
  task_scheduled : Bool
  recs : RouterId → RouterRec

/-- Embedding of `parse_configuration` (click.cc lines 289-327), with the external
parser/initializer outcomes abstracted: `readRouter` is the result of
`click_read_router` (`none` on parse/configure failure), `nerrors` the error
count accumulated on `errh`, `initResult` the value of `r->initialize(errh)`.
Returns the installed router (or `none`) and the signal dispositions after
the call. -/
def parse_configuration (hotswap : Bool) (readRouter : Option RouterId)
    (nerrors : Nat) (initResult : Int) (sigs : SigState) :
    Option RouterId × SigState :=
  match readRouter with
  | none => (none, sigs)
  | some r =>
      let sigs2 := install_signals hotswap sigs
      if 0 < nerrors ∨ initResult < 0 then (none, sigs2) else (some r, sigs2)

/-- Embedding of `hotconfig_handler` (click.cc lines 329-340): parse the new configuration
as a hot-swap; on success stage it in `hotswap_router` (releasing any
previously staged router) and reschedule `hotswap_task`, returning 0; on
failure return `-EINVAL` (= -22) leaving the driver state untouched. -/
def hotconfig_handler (readRouter : Option RouterId) (nerrors : Nat)
    (initResult : Int) (st : HotswapState) (sigs : SigState) :
    HotswapState × SigState × Int :=
  match parse_configuration true readRouter nerrors initResult sigs with
  | (some q, sigs2) =>
      let st1 :=
        match st.hotswap_router with
        | some old => { st with recs := routerUnuse old st.recs }
        | none => st
      ({ st1 with hotswap_router := some q, task_scheduled := true }, sigs2, 0)
  | (none, sigs2) => (st, sigs2, -22)

/-- Embedding of `hotswap_hook` (click.cc lines 262-271): activate the staged router,
release the old router, make the staged router current and take a reference
on it, then clear the staging slot.  Running the task consumes its
schedule. -/
def hotswap_hook (st : HotswapState) : HotswapState :=
  match st.hotswap_router with
  | none => { st with task_scheduled := false }
  | some q =>
      let rs1 := routerActivate q st.recs
      let rs2 := routerUnuse st.router rs1
      let rs3 := routerUse q rs2
      { router := q, hotswap_router := none, task_scheduled := false, recs := rs3 }

/-- A router-scope write handler registered through
`Router::add_write_handler`. -/
structure GlobalWriteHandler where
  name : String
  raw : Bool
  nonexclusive : Bool
  hook : Option RouterId → Nat → Int → HotswapState → SigState →
    HotswapState × SigState × Int

/-- The `done:` block of `main` (click.cc lines 513-516): the `hotconfig`
write handler is registered, with `Handler::RAW | Handler::NONEXCLUSIVE`,
exactly when `--allow-reconfigure` was given. -/
def setup_hotconfig (allow_reconfigure : Bool) : List GlobalWriteHandler :=
  if allow_reconfigure then
    [{ name := "hotconfig", raw := true, nonexclusive := true,
       hook := hotconfig_handler }]
  else []

/-- Exit-handler dispatch of `main` (click.cc lines 594-609).  The parses of
the (uncommented) handler text by the library functions `cp_integer` and
`cp_bool` (confparse.cc is not under `src/`) are abstracted into the
parameters `int_parse` and `bool_parse`; `read_errors` records whether
`HandlerCall::call_read` reported errors.  Returns the new exit value and the
error message reported, if any. -/
def exit_handler_update (exit_handler_specified : Bool) (read_errors : Bool)
    (int_parse : Option Int) (bool_parse : Option Bool) (exit_value : Int) :
    Int × Option String :=
  if exit_handler_specified then
    if read_errors then (-1, none)
    else
      match int_parse with
      | some v => (v, none)
      | none =>
          match bool_parse with
          | some b => ((if b then 0 else 1), none)
          | none => (-1, some ("exit handler value should be integer"))
  else (exit_value, none)

/-- Embedding of `SetTXPower_write_param` (settxpower.cc lines 81-98) for the `H_POWER`
handler.  `parsed_power` is the result of the library parse
`cp_unsigned(cp_uncomment(in_s))` (confparse.cc is not under `src/`):
`none` when the input does not parse as an unsigned integer.  Returns the
stored power after the call, the handler's return value (`errh->error`
returns `-EINVAL`), and the error message, if any. -/
def SetTXPower_write_param (parsed_power : Option Nat) (power : Nat) :
    Nat × Int × Option String :=
  match parsed_power with
  | none => (power, -22, some ("power parameter must be unsigned"))
  | some m => (m, 0, none)

/-- A handler record as looked up by `Router::handler`: visibility, read
visibility, the `RAW` flag, and the string its read function returns. -/
structure HandlerRec where
  visible : Bool
  read_visible : Bool
  raw : Bool
  read_result : String
deriving DecidableEq

/-- An element of the installed router: instance name, class name, its
handler table, and whether it is the router's root element.  Names are
embedded as character lists. -/
structure Elem where
  name : List Char
  klass : List Char
  handlers : List (List Char × HandlerRec)
  isRoot : Bool
deriving DecidableEq

/-- The installed router as the driver sees it: elements in
element-index order, plus the root element. -/
structure ClickRouter where
  elems : List Elem
  root : Elem
deriving DecidableEq

/-- Embedding of `Router::find`: look up an element by instance name. -/
def findElem (r : ClickRouter) (n : List Char) : Option Elem :=
  r.elems.find? (fun e => e.name == n)

/-- Embedding of `Router::handler(e, name)`: look up a handler by name on an element. -/
def handlerLookup (e : Elem) (hname : List Char) : Option HandlerRec :=
  (e.handlers.find? (fun p => p.1 == hname)).map Prod.snd

/-- Embedding of `Handler::unparse_name(e, name)`: `element.name` for ordinary elements,
the bare handler name for the root element. -/
def unparse_name (e : Elem) (hname : List Char) : List Char :=
  if e.isRoot then hname else e.name ++ '.' :: hname

/-- The accumulating error handler: number of errors and their messages. -/
structure ErrState where
  nerrors : Nat
  msgs : List String
deriving DecidableEq

/-- Embedding of `ErrorHandler::error`: record the message and return `-EINVAL`. -/
def errError (errh : ErrState) (msg : String) : ErrState × Int :=
  ({ nerrors := errh.nerrors + 1, msgs := errh.msgs ++ [msg] }, -22)

/-- Test mirroring `result.back() == '\\n'`: whether a string's last character is a
newline. -/
def endsWithNewline (s : String) : Bool :=
  match s.data.getLast? with
  | some c => c == '\n'
  | none => false

/-- Result of one driver read-handler invocation: return value, text printed
to stdout, and the error state afterwards. -/
structure CallOut where
  ret : Int
  out : String
  errh : ErrState
deriving DecidableEq

/-- Embedding of `call_read_handler` (click.cc lines 169-190): report `no '<name>'
handler` when the handler is missing or invisible, `'<name>' is a write
handler` when it is not readable; otherwise print the read result, appending
a newline when the handler is not `raw`, the result is nonempty, and it does
not already end in a newline. -/
def call_read_handler (e : Elem) (handler_name : List Char)
    (print_name : Bool) (errh : ErrState) : CallOut :=
  let full := (unparse_name e handler_name).asString
  match handlerLookup e handler_name with
  | none =>
      let er := errError errh ("no '" ++ full ++ "' handler")
      { ret := er.2, out := "", errh := er.1 }
  | some rh =>
      if !rh.visible then
        let er := errError errh ("no '" ++ full ++ "' handler")
        { ret := er.2, out := "", errh := er.1 }
      else if !rh.read_visible then
        let er := errError errh ("'" ++ full ++ "' is a write handler")
        { ret := er.2, out := "", errh := er.1 }
      else
        let result := rh.read_result
        let result :=
          if !rh.raw && !(result == "") && !(endsWithNewline result) then
            result ++ "\n"
          else result
        { ret := 0,
          out := (if print_name then full ++ ":\n" else "") ++ result ++
            (if print_name then ("\n") else ""),
          errh := errh }

/-- The wildcard scan of `expand_handler_elements` (click.cc lines 202-207):
does the element part contain a glob metacharacter? -/
def hasWildcard (p : List Char) : Bool :=
  p.any (fun c => c == '?' || c == '*' || c == '[')

/-- Fuel-driven core of `globMatch`. -/
def globMatchAux : Nat → List Char → List Char → Bool
  | 0, _, _ => false
  | _ + 1, s, [] => s.isEmpty
  | fuel + 1, s, '*' :: ps =>
      globMatchAux fuel s ps ||
        (match s with
         | [] => false
         | _ :: ss => globMatchAux fuel ss ('*' :: ps))
  | fuel + 1, s, '?' :: ps =>
      (match s with
       | [] => false
       | _ :: ss => globMatchAux fuel ss ps)
  | fuel + 1, s, '[' :: ps =>
      (match s with
       | [] => false
       | c :: ss =>
           (ps.takeWhile (fun d => d != ']')).contains c &&
             globMatchAux fuel ss ((ps.dropWhile (fun d => d != ']')).drop 1))
  | fuel + 1, s, p :: ps =>
      (match s with
       | [] => false
       | c :: ss => c == p && globMatchAux fuel ss ps)

/-- Modelled from the spec: `glob_match` (library code, not under `src/`) --
shell-style glob matching of an instance name against a pattern, where `?`
matches any single character, `*` any character sequence, and `[...]` any of
the listed characters.  Every recursive step of the matcher shrinks the sum
of the lengths, so the given fuel always suffices. -/
def globMatch (s p : List Char) : Bool :=
  globMatchAux (s.length + p.length + 1) s p

/-- The handler filter of `expand_handler_elements` (click.cc line 216): the
element is kept only when it has a read-visible handler of the given name. -/
def handlerReadOk (e : Elem) (hname : List Char) : Bool :=
  match handlerLookup e hname with
  | some h => h.read_visible
  | none => false

/-- The matching test applied to each element by `expand_handler_elements`
(click.cc lines 211-213): glob the instance name when the element part is a
pattern, otherwise match by class name (`Element::cast`). -/
def expandMatches (is_pat : Bool) (pattern : List Char) (e : Elem) : Bool :=
  if is_pat then globMatch e.name pattern else e.klass == pattern

/-- The scan loop of `expand_handler_elements` (click.cc lines 209-218) over
the element list in index order: returns whether any element matched and the
matched elements that carry the requested read handler. -/
def expand_scan (is_pat : Bool) (pattern handler_name : List Char) :
    List Elem → Bool × List Elem
  | [] => (false, [])
  | e :: es =>
      let rest := expand_scan is_pat pattern handler_name es
      if expandMatches is_pat pattern e then
        (true, if handlerReadOk e handler_name then e :: rest.2 else rest.2)
      else rest

/-- Embedding of `expand_handler_elements` (click.cc lines 192-223): an exact instance
name selects that element (returning 1); otherwise the element list is
scanned by glob pattern or class name, returning 2 with the selected
elements, or an error when nothing matched. -/
def expand_handler_elements (pattern handler_name : List Char)
    (r : ClickRouter) (errh : ErrState) : Int × List Elem × ErrState :=
  match findElem r pattern with
  | some e => (1, [e], errh)
  | none =>
      let is_pat := hasWildcard pattern
      let scan := expand_scan is_pat pattern handler_name r.elems
      if scan.1 then (2, scan.2, errh)
      else
        let msg := (if is_pat then ("no element matching '") else ("no element '")) ++
          pattern.asString ++ "'"
        let er := errError errh msg
        (er.2, [], er.1)

/-- Embedding of `find(handlers[i], '.')` followed by the two `substring` calls
(click.cc lines 235-242): split a handler request at its first dot. -/
def splitAtDot : List Char → Option (List Char × List Char)
  | [] => none
  | c :: cs =>
      if c == '.' then some ([], cs)
      else
        match splitAtDot cs with
        | some p => some (c :: p.1, p.2)
        | none => none

/-- Embedding of `call_read_handlers` (click.cc lines 225-252): expand and invoke every
requested read handler, printing names when more than one request was given
or a request expanded to several elements; returns 0 when no new error was
recorded and -1 otherwise, together with the stdout text and the final error
state. -/
def call_read_handlers (r : ClickRouter) (handlers : List (List Char))
    (errh : ErrState) : Int × String × ErrState :=
  let print_names := decide (1 < handlers.length)
  let before := errh.nerrors
  let step := fun (acc : String × ErrState) (hreq : List Char) =>
    match splitAtDot hreq with
    | none =>
        let c := call_read_handler r.root hreq print_names acc.2
        (acc.1 ++ c.out, c.errh)
    | some (ename, hname) =>
        let ex := expand_handler_elements ename hname r acc.2
        if 0 ≤ ex.1 then
          ex.2.1.foldl
            (fun (acc2 : String × ErrState) e =>
              let c := call_read_handler e hname
                (print_names || decide (1 < ex.1)) acc2.2
              (acc2.1 ++ c.out, c.errh))
            (acc.1, ex.2.2)
        else (acc.1, ex.2.2)
  let fin := handlers.foldl step ("", errh)
  ((if fin.2.nerrors = before then 0 else -1), fin.1, fin.2)

/-- The handler-reporting step of `main` (click.cc lines 589-592): a failed
`call_read_handlers` run forces exit value 1. -/
def handlers_exit_value (r : ClickRouter) (handlers : List (List Char))
    (errh : ErrState) (exit_value : Int) : Int :=
  if handlers.length ≠ 0 ∧ (call_read_handlers r handlers errh).1 < 0 then 1
  else exit_value

/-- Sample router records used by concrete witnesses. -/
def sampleRecs : RouterId → RouterRec :=
  fun _ => { useCount := 1, active := true, destroyed := false }

/-- Sample driver hot-swap state used by concrete witnesses. -/
def sampleState : HotswapState :=
  { router := 0, hotswap_router := none, task_scheduled := false,
    recs := sampleRecs }

/-- Sample signal dispositions used by concrete witnesses. -/
def sampleSigs : SigState :=
  { sigint := SigAction.stopHandler, sigterm := SigAction.stopHandler,
    sigpipe := SigAction.sigIgnore }

/-- A visible, readable, non-raw handler whose result already ends in a
newline. -/
def newlineHandler : HandlerRec :=
  { visible := true, read_visible := true, raw := false, read_result := "7\n" }

/-- A visible, readable, non-raw handler whose result is empty. -/
def emptyHandler : HandlerRec :=
  { visible := true, read_visible := true, raw := false, read_result := "" }

/-- Element carrying the two handlers above under the names `value` and
`nothing`. -/
def newlineElem : Elem :=
  { name := ['x'], klass := ['X'],
    handlers := [(['v'], newlineHandler), (['n'], emptyHandler)],
    isRoot := false }

/-- Element `a1`: matches the glob pattern but has no handlers. -/
def idleElem : Elem :=
  { name := ['a', '1'], klass := ['C'], handlers := [], isRoot := false }

/-- A visible read handler used by the glob-expansion examples. -/
def servingHandler : HandlerRec :=
  { visible := true, read_visible := true, raw := false, read_result := "ok" }

/-- Element `a2`: matches the glob pattern and has the read handler `h`. -/
def servingElem : Elem :=
  { name := ['a', '2'], klass := ['C'],
    handlers := [(['h'], servingHandler)], isRoot := false }

/-- The root element of the sample router. -/
def rootElem : Elem :=
  { name := [], klass := [], handlers := [], isRoot := true }

/-- A sample two-element router. -/
def sampleRouter : ClickRouter :=
  { elems := [idleElem, servingElem], root := rootElem }

/-! ## Theorems -/

/-- Claim C1: if a configuration text written to the `hotconfig` handler
fails parsing, configuration, resolution, or initialization (the external
read returns no router, errors were recorded, or `initialize` failed), the
running router continues unchanged -- the whole driver state, including the
current router and every router record, is untouched -- and the negative
error status `-EINVAL` is returned to the writer. -/
theorem hotconfig_failure_keeps_old_router (readRouter : Option RouterId)
    (nerrors : Nat) (initResult : Int) (st : HotswapState) (sigs : SigState)
    (hfail : readRouter = none ∨ 0 < nerrors ∨ initResult < 0) :
    hotconfig_handler readRouter nerrors initResult st sigs = (st, sigs, -22) ∧
    (-22 : Int) < 0 := by
  refine ⟨?_, by norm_num⟩
  rcases hfail with h | h
  · subst h; rfl
  · cases readRouter with
    | none => rfl
    | some r =>
        have hp : parse_configuration true (some r) nerrors initResult sigs
            = (none, sigs) := by
          simp [parse_configuration, install_signals, h]
        simp [hotconfig_handler, hp]

/-- Witness for C1: a hot-swap write whose configuration fails to parse
leaves the concrete driver state unchanged and returns `-EINVAL`. -/
theorem hotconfig_failure_keeps_old_router_witness :
    hotconfig_handler none 0 0 sampleState sampleSigs =
      (sampleState, sampleSigs, -22) ∧ (-22 : Int) < 0 :=
  hotconfig_failure_keeps_old_router none 0 0 sampleState sampleSigs (Or.inl rfl)

/-- Claim C2: a successful `hotconfig` write returns 0 and schedules the
one-shot hot-swap task with the new router staged; when the task runs,
`hotswap_hook` activates the new router, makes it the driver's current
router, consumes the schedule, and decrements the old router's use count,
tearing the old router down when that count reaches zero. -/
theorem hotconfig_success_swaps_router (q : RouterId) (nerrors : Nat)
    (initResult : Int) (st : HotswapState) (sigs : SigState)
    (hok : ¬(0 < nerrors ∨ initResult < 0))
    (hslot : st.hotswap_router = none)
    (hne : q ≠ st.router) :
    (hotconfig_handler (some q) nerrors initResult st sigs).2.2 = 0 ∧
    (hotconfig_handler (some q) nerrors initResult st sigs).1.task_scheduled = true ∧
    (hotconfig_handler (some q) nerrors initResult st sigs).1.hotswap_router = some q ∧
    ((hotswap_hook (hotconfig_handler (some q) nerrors initResult st sigs).1).router = q ∧
     ((hotswap_hook (hotconfig_handler (some q) nerrors initResult st sigs).1).recs q).active = true ∧
     (hotswap_hook (hotconfig_handler (some q) nerrors initResult st sigs).1).task_scheduled = false ∧
     ((hotswap_hook (hotconfig_handler (some q) nerrors initResult st sigs).1).recs st.router).useCount =
       (st.recs st.router).useCount - 1 ∧
     ((st.recs st.router).useCount - 1 = 0 →
       ((hotswap_hook (hotconfig_handler (some q) nerrors initResult st sigs).1).recs st.router).destroyed = true)) := by
  have hres : hotconfig_handler (some q) nerrors initResult st sigs =
      ({ st with hotswap_router := some q, task_scheduled := true }, sigs, 0) := by
    simp [hotconfig_handler, parse_configuration, install_signals, hok, hslot]
  rw [hres]
  have hne2 : st.router ≠ q := fun h => hne h.symm
  refine ⟨rfl, rfl, rfl, rfl, ?_, rfl, ?_, ?_⟩
  · simp [hotswap_hook, routerUse, routerUnuse, routerActivate, hne, hne2]
  · simp [hotswap_hook, routerUse, routerUnuse, routerActivate, hne, hne2]
  · intro hz
    simp [hotswap_hook, routerUse, routerUnuse, routerActivate, hne, hne2, hz]

/-- Witness for C2: a successful hot-swap of router 1 over router 0 with use
count 1 schedules the task, and running the hook activates router 1, makes
it current, and tears router 0 down. -/
theorem hotconfig_success_swaps_router_witness :
    (hotconfig_handler (some 1) 0 0 sampleState sampleSigs).2.2 = 0 ∧
    (hotconfig_handler (some 1) 0 0 sampleState sampleSigs).1.task_scheduled = true ∧
    (hotconfig_handler (some 1) 0 0 sampleState sampleSigs).1.hotswap_router = some 1 ∧
    ((hotswap_hook (hotconfig_handler (some 1) 0 0 sampleState sampleSigs).1).router = 1 ∧
     ((hotswap_hook (hotconfig_handler (some 1) 0 0 sampleState sampleSigs).1).recs 1).active = true ∧
     (hotswap_hook (hotconfig_handler (some 1) 0 0 sampleState sampleSigs).1).task_scheduled = false ∧
     ((hotswap_hook (hotconfig_handler (some 1) 0 0 sampleState sampleSigs).1).recs sampleState.router).useCount =
       (sampleState.recs sampleState.router).useCount - 1 ∧
     ((sampleState.recs sampleState.router).useCount - 1 = 0 →
       ((hotswap_hook (hotconfig_handler (some 1) 0 0 sampleState sampleSigs).1).recs sampleState.router).destroyed = true)) :=
  hotconfig_success_swaps_router 1 0 0 sampleState sampleSigs
    (by decide) rfl (by decide)

/-- Claim C3: with an exit handler specified and its read successful, the
handler's text determines the exit status -- the integer parse when it
succeeds, otherwise a boolean parse mapped to 0 (true) or 1 (false),
otherwise the error `exit handler value should be integer` is reported --
and the result overrides whatever exit value the run had produced. -/
theorem exit_handler_determines_status :
    ∀ (v : Int) (b : Bool) (bp : Option Bool) (e e2 : Int),
      exit_handler_update true false (some v) bp e = (v, none) ∧
      exit_handler_update true false none (some b) e =
        ((if b then 0 else 1), none) ∧
      exit_handler_update true false none none e =
        (-1, some ("exit handler value should be integer")) ∧
      (∀ (ip : Option Int) (bp2 : Option Bool),
        exit_handler_update true false ip bp2 e =
          exit_handler_update true false ip bp2 e2) := by
  intro v b bp e e2
  refine ⟨rfl, rfl, rfl, fun ip bp2 => ?_⟩
  cases ip <;> cases bp2 <;> rfl

/-- Claim C7: the router-scope `hotconfig` write handler is registered
exactly when `--allow-reconfigure` was given, and it carries the `RAW` and
`NONEXCLUSIVE` flags and invokes the hot-swap procedure
`hotconfig_handler`. -/
theorem hotconfig_registered_iff_reconfigure :
    setup_hotconfig true =
      [{ name := "hotconfig", raw := true, nonexclusive := true,
         hook := hotconfig_handler }] ∧
    setup_hotconfig false = [] :=
  ⟨rfl, rfl⟩

/-- Claim C8: once the driver has started, the interrupt/terminate handler
sets the runcount to `STOP_RUNCOUNT` (before that it re-raises the signal);
a non-hot-swap router installation installs the stop handler on interrupt
and terminate and ignores broken-pipe; a hot-swap installation never touches
the signal dispositions, so the handlers are installed only at the first
installation. -/
theorem signal_handlers_installed_once :
    (∀ rc : Int, stop_signal_handler true rc = (STOP_RUNCOUNT, false)) ∧
    (∀ rc : Int, stop_signal_handler false rc = (rc, true)) ∧
    (∀ (r : RouterId) (n : Nat) (i : Int) (sigs : SigState),
        (parse_configuration false (some r) n i sigs).2 =
          { sigint := SigAction.stopHandler, sigterm := SigAction.stopHandler,
            sigpipe := SigAction.sigIgnore }) ∧
    (∀ (ro : Option RouterId) (n : Nat) (i : Int) (sigs : SigState),
        (parse_configuration true ro n i sigs).2 = sigs) := by
  refine ⟨fun rc => rfl, fun rc => rfl, fun r n i sigs => ?_, fun ro n i sigs => ?_⟩
  · simp only [parse_configuration, install_signals]
    split <;> rfl
  · cases ro with
    | none => rfl
    | some r =>
        simp only [parse_configuration, install_signals]
        split <;> rfl

/-- Claim C10: the `power` write handler of `SetTXPower` leaves the stored
power unchanged and returns the error `power parameter must be unsigned`
(with a negative status) when the input does not parse as an unsigned
integer, and stores the parsed value and returns 0 when it does. -/
theorem settxpower_power_write :
    ∀ (p m : Nat),
      SetTXPower_write_param none p =
        (p, -22, some ("power parameter must be unsigned")) ∧
      (-22 : Int) < 0 ∧
      SetTXPower_write_param (some m) p = (m, 0, none) := by
  intro p m
  exact ⟨rfl, by norm_num, rfl⟩

/-- The scan loop of `expand_handler_elements` computes, in element-index
order, whether any element matched together with the matched elements that
carry the requested read handler. -/
theorem expand_scan_eq (is_pat : Bool) (pattern hname : List Char)
    (es : List Elem) :
    expand_scan is_pat pattern hname es =
      (es.any (expandMatches is_pat pattern),
       (es.filter (expandMatches is_pat pattern)).filter
         (fun e => handlerReadOk e hname)) := by
  induction es with
  | nil => rfl
  | cons e es ih =>
      by_cases hm : expandMatches is_pat pattern e
      · by_cases hh : handlerReadOk e hname
        · simp [expand_scan, List.any_cons, List.filter_cons, hm, hh, ih]
        · simp [expand_scan, List.any_cons, List.filter_cons, hm, hh, ih]
      · simp [expand_scan, List.any_cons, List.filter_cons, hm, ih]

/-- Splitting a dotted handler request at its first dot recovers the element
and handler parts when the element part is dot-free. -/
theorem splitAtDot_append (ename hname : List Char) (h : '.' ∉ ename) :
    splitAtDot (ename ++ '.' :: hname) = some (ename, hname) := by
  induction ename with
  | nil => simp [splitAtDot]
  | cons c cs ih =>
      simp only [List.mem_cons, not_or] at h
      have hc : ¬c = '.' := fun hc => h.1 hc.symm
      simp [splitAtDot, hc, ih h.2]

/-- An element found by instance name bears that name. -/
theorem findElem_name (r : ClickRouter) (n : List Char) (e : Elem)
    (h : findElem r n = some e) : e.name = n := by
  have h2 : r.elems.find? (fun x => x.name == n) = some e := h
  have := List.find?_some h2
  simpa using this

/-- Counterexample to claim C4 as stated: for a read handler that is not
`raw`, the driver does not always print the result with a trailing newline
added -- a result already ending in a newline is printed unchanged, and an
empty result is printed without any newline. -/
theorem call_read_handler_newline_counterexample :
    newlineHandler.raw = false ∧
    (call_read_handler newlineElem ['v'] false { nerrors := 0, msgs := [] }).out =
      newlineHandler.read_result ∧
    (call_read_handler newlineElem ['v'] false { nerrors := 0, msgs := [] }).out ≠
      newlineHandler.read_result ++ "\n" ∧
    emptyHandler.raw = false ∧
    (call_read_handler newlineElem ['n'] false { nerrors := 0, msgs := [] }).out = "" ∧
    (call_read_handler newlineElem ['n'] false { nerrors := 0, msgs := [] }).out ≠
      emptyHandler.read_result ++ "\n" := by
  decide

/-- Claim C4 (amended): when a driver read-handler invocation finds a
visible read handler, the body text printed to stdout is the handler's
result string, with a trailing newline added unless the handler is marked
`raw`, the result is empty, or the result already ends in a newline. -/
theorem call_read_handler_newline_amended (e : Elem) (hname : List Char)
    (h : HandlerRec) (errh : ErrState)
    (hl : handlerLookup e hname = some h) (hv : h.visible = true)
    (hr : h.read_visible = true) :
    (call_read_handler e hname false errh).ret = 0 ∧
    (h.raw = true → (call_read_handler e hname false errh).out = h.read_result) ∧
    (h.raw = false → h.read_result ≠ "" →
      endsWithNewline h.read_result = false →
      (call_read_handler e hname false errh).out = h.read_result ++ "\n") ∧
    (h.raw = false →
      (h.read_result = "" ∨ endsWithNewline h.read_result = true) →
      (call_read_handler e hname false errh).out = h.read_result) := by
  refine ⟨?_, ?_, ?_, ?_⟩
  · simp [call_read_handler, hl, hv, hr]
  · intro hraw
    simp [call_read_handler, hl, hv, hr, hraw]
  · intro hraw hne hnl
    simp [call_read_handler, hl, hv, hr, hraw, hne, hnl]
  · intro hraw hcase
    rcases hcase with hc | hc
    · simp [call_read_handler, hl, hv, hr, hraw, hc]
    · simp [call_read_handler, hl, hv, hr, hraw, hc]

/-- Witness for the amended C4: the concrete handler returning a
newline-terminated string is printed verbatim. -/
theorem call_read_handler_newline_amended_witness :
    (call_read_handler newlineElem ['v'] false { nerrors := 0, msgs := [] }).ret = 0 ∧
    newlineHandler.raw = false ∧
    (newlineHandler.read_result = "" ∨
      endsWithNewline newlineHandler.read_result = true) ∧
    (call_read_handler newlineElem ['v'] false { nerrors := 0, msgs := [] }).out =
      newlineHandler.read_result := by
  have hmain := call_read_handler_newline_amended newlineElem ['v'] newlineHandler
    { nerrors := 0, msgs := [] } (by decide) rfl rfl
  exact ⟨hmain.1, rfl, Or.inr (by decide),
    hmain.2.2.2 rfl (Or.inr (by decide))⟩

/-- Counterexample to claim C6 as stated: for the pattern `a?`, both
elements glob-match, yet the invoked elements are not all glob-matching
elements -- the element lacking the read handler `h` is left out. -/
theorem expand_wildcard_counterexample :
    hasWildcard ['a', '?'] = true ∧
    findElem sampleRouter ['a', '?'] = none ∧
    globMatch idleElem.name ['a', '?'] = true ∧
    globMatch servingElem.name ['a', '?'] = true ∧
    (expand_handler_elements ['a', '?'] ['h'] sampleRouter
      { nerrors := 0, msgs := [] }).2.1 = [servingElem] ∧
    (expand_handler_elements ['a', '?'] ['h'] sampleRouter
      { nerrors := 0, msgs := [] }).2.1 ≠ [idleElem, servingElem] := by
  decide

/-- Claim C6 (amended): when the element part does not exactly name an
instance, the invoked elements are exactly those that match -- by glob on
the instance name when the part contains a wildcard, by class name
otherwise -- and that carry a read-visible handler of the given name,
visited in ascending element-index order; when no element matches the
pattern or class (regardless of handler presence), an error naming the
pattern is reported. -/
theorem expand_wildcard_class_amended (r : ClickRouter)
    (pattern hname : List Char) (errh : ErrState)
    (hfind : findElem r pattern = none) :
    (r.elems.filter (expandMatches (hasWildcard pattern) pattern) ≠ [] →
      expand_handler_elements pattern hname r errh =
        (2, (r.elems.filter (expandMatches (hasWildcard pattern) pattern)).filter
              (fun e => handlerReadOk e hname), errh)) ∧
    (r.elems.filter (expandMatches (hasWildcard pattern) pattern) = [] →
      expand_handler_elements pattern hname r errh =
        (-22, [],
          { nerrors := errh.nerrors + 1,
            msgs := errh.msgs ++
              [(if hasWildcard pattern then ("no element matching '")
                else ("no element '")) ++ pattern.asString ++ "'"] })) := by
  have hscan := expand_scan_eq (hasWildcard pattern) pattern hname r.elems
  constructor
  · intro hne
    have hany : r.elems.any (expandMatches (hasWildcard pattern) pattern) = true := by
      by_contra hno
      refine hne (List.filter_eq_nil_iff.mpr ?_)
      intro a ha hpa
      exact hno (List.any_eq_true.mpr ⟨a, ha, hpa⟩)
    simp [expand_handler_elements, hfind, hscan, hany]
  · intro hnil
    have hany : r.elems.any (expandMatches (hasWildcard pattern) pattern) = false := by
      rw [List.any_eq_false]
      exact fun x hx => List.filter_eq_nil_iff.mp hnil x hx
    simp [expand_handler_elements, hfind, hscan, hany, errError]

/-- Witness for the amended C6: on the sample router the pattern `a?`
invokes exactly the matching element that carries the handler. -/
theorem expand_wildcard_class_amended_witness :
    expand_handler_elements ['a', '?'] ['h'] sampleRouter
        { nerrors := 0, msgs := [] } =
      (2, [servingElem], { nerrors := 0, msgs := [] }) := by
  have h := (expand_wildcard_class_amended sampleRouter ['a', '?'] ['h']
    { nerrors := 0, msgs := [] } (by decide)).1 (by decide)
  exact h.trans (by decide)

/-- Claim C9: an element part that exactly names an instance selects that
single element, bypassing glob and class matching; otherwise, among the
matched elements only those carrying a read-visible handler of the given
name end up invoked, and matched elements lacking it are skipped without an
error (the error state is untouched and the call reports success). -/
theorem expand_exact_name_precedence (r : ClickRouter)
    (pattern hname : List Char) (errh : ErrState) :
    (∀ e, findElem r pattern = some e →
      expand_handler_elements pattern hname r errh = (1, [e], errh)) ∧
    (findElem r pattern = none →
      r.elems.filter (expandMatches (hasWildcard pattern) pattern) ≠ [] →
      ((expand_handler_elements pattern hname r errh).1 = 2 ∧
       (expand_handler_elements pattern hname r errh).2.2 = errh ∧
       (∀ e ∈ r.elems.filter (expandMatches (hasWildcard pattern) pattern),
         handlerReadOk e hname = false →
         e ∉ (expand_handler_elements pattern hname r errh).2.1) ∧
       (∀ e ∈ r.elems.filter (expandMatches (hasWildcard pattern) pattern),
         handlerReadOk e hname = true →
         e ∈ (expand_handler_elements pattern hname r errh).2.1))) := by
  constructor
  · intro e hfind
    simp [expand_handler_elements, hfind]
  · intro hfind hne
    have hscan := expand_scan_eq (hasWildcard pattern) pattern hname r.elems
    have hany : r.elems.any (expandMatches (hasWildcard pattern) pattern) = true := by
      by_contra hno
      refine hne (List.filter_eq_nil_iff.mpr ?_)
      intro a ha hpa
      exact hno (List.any_eq_true.mpr ⟨a, ha, hpa⟩)
    have hres : expand_handler_elements pattern hname r errh =
        (2, (r.elems.filter (expandMatches (hasWildcard pattern) pattern)).filter
              (fun e => handlerReadOk e hname), errh) := by
      simp [expand_handler_elements, hfind, hscan, hany]
    rw [hres]
    refine ⟨rfl, rfl, ?_, ?_⟩
    · intro e he hro hmem
      have := (List.mem_filter.mp hmem).2
      simp [hro] at this
    · intro e he hro
      exact List.mem_filter.mpr ⟨he, by simp [hro]⟩

/-- Witness for C9: on the sample router, the exact name `a1` selects that
element despite its lack of handlers; under the pattern `a?` the element
without the handler is skipped and the one carrying it is invoked. -/
theorem expand_exact_name_precedence_witness :
    expand_handler_elements ['a', '1'] ['h'] sampleRouter
        { nerrors := 0, msgs := [] } =
      (1, [idleElem], { nerrors := 0, msgs := [] }) ∧
    idleElem ∉ (expand_handler_elements ['a', '?'] ['h'] sampleRouter
        { nerrors := 0, msgs := [] }).2.1 ∧
    servingElem ∈ (expand_handler_elements ['a', '?'] ['h'] sampleRouter
        { nerrors := 0, msgs := [] }).2.1 := by
  refine ⟨(expand_exact_name_precedence sampleRouter ['a', '1'] ['h']
    { nerrors := 0, msgs := [] }).1 idleElem (by decide), ?_, ?_⟩
  · exact ((expand_exact_name_precedence sampleRouter ['a', '?'] ['h']
      { nerrors := 0, msgs := [] }).2 (by decide) (by decide)).2.2.1 idleElem
      (by decide) (by decide)
  · exact ((expand_exact_name_precedence sampleRouter ['a', '?'] ['h']
      { nerrors := 0, msgs := [] }).2 (by decide) (by decide)).2.2.2 servingElem
      (by decide) (by decide)

/-- Running the driver handler phase on a single dotted request that expands
to one element whose invocation records an error: the run returns -1, prints
nothing, surfaces the error, and forces exit value 1. -/
theorem call_read_handlers_single_error (r : ClickRouter)
    (ename hname : List Char) (e : Elem) (errh : ErrState) (msg : String)
    (exit0 : Int)
    (hdot : '.' ∉ ename)
    (hexp : expand_handler_elements ename hname r errh = (1, [e], errh))
    (hcall : call_read_handler e hname false errh =
      { ret := -22, out := "",
        errh := { nerrors := errh.nerrors + 1, msgs := errh.msgs ++ [msg] } }) :
    call_read_handlers r [ename ++ '.' :: hname] errh =
      (-1, "", { nerrors := errh.nerrors + 1, msgs := errh.msgs ++ [msg] }) ∧
    handlers_exit_value r [ename ++ '.' :: hname] errh exit0 = 1 := by
  have hsplit := splitAtDot_append ename hname hdot
  have hrun : call_read_handlers r [ename ++ '.' :: hname] errh =
      (-1, "", { nerrors := errh.nerrors + 1, msgs := errh.msgs ++ [msg] }) := by
    simp [call_read_handlers, hsplit, hexp, hcall, Nat.succ_ne_self]
  refine ⟨hrun, ?_⟩
  simp [handlers_exit_value, hrun]

/-- Claim C5: a driver read-handler request `E.H` naming an element `E`
without a visible handler `H` reports `no 'E.H' handler`; a request for a
handler that exists and is visible but not readable reports that it is a
write handler; in each case the error is surfaced (the run returns -1 with
the message recorded) and the process exit value becomes 1. -/
theorem driver_read_handler_errors (r : ClickRouter)
    (ename hname : List Char) (e : Elem) (errh : ErrState) (exit0 : Int)
    (hdot : '.' ∉ ename)
    (hfind : findElem r ename = some e)
    (hroot : e.isRoot = false) :
    (handlerLookup e hname = none →
      (("no '" ++ (ename ++ '.' :: hname).asString ++ "' handler") ∈
          (call_read_handlers r [ename ++ '.' :: hname] errh).2.2.msgs ∧
        (call_read_handlers r [ename ++ '.' :: hname] errh).1 = -1 ∧
        handlers_exit_value r [ename ++ '.' :: hname] errh exit0 = 1)) ∧
    (∀ hh, handlerLookup e hname = some hh → hh.visible = false →
      (("no '" ++ (ename ++ '.' :: hname).asString ++ "' handler") ∈
          (call_read_handlers r [ename ++ '.' :: hname] errh).2.2.msgs ∧
        (call_read_handlers r [ename ++ '.' :: hname] errh).1 = -1 ∧
        handlers_exit_value r [ename ++ '.' :: hname] errh exit0 = 1)) ∧
    (∀ hh, handlerLookup e hname = some hh → hh.visible = true →
      hh.read_visible = false →
      (("'" ++ (ename ++ '.' :: hname).asString ++ "' is a write handler") ∈
          (call_read_handlers r [ename ++ '.' :: hname] errh).2.2.msgs ∧
        (call_read_handlers r [ename ++ '.' :: hname] errh).1 = -1 ∧
        handlers_exit_value r [ename ++ '.' :: hname] errh exit0 = 1)) := by
  have hexp : expand_handler_elements ename hname r errh = (1, [e], errh) := by
    simp [expand_handler_elements, hfind]
  have hen : e.name = ename := findElem_name r ename e hfind
  have hfull : unparse_name e hname = ename ++ '.' :: hname := by
    simp [unparse_name, hroot, hen]
  refine ⟨?_, ?_, ?_⟩
  · intro hl
    have hcall : call_read_handler e hname false errh =
        { ret := -22, out := "",
          errh := { nerrors := errh.nerrors + 1,
                    msgs := errh.msgs ++
                      ["no '" ++ (ename ++ '.' :: hname).asString ++ "' handler"] } } := by
      simp [call_read_handler, hl, hfull, errError]
    have hmain := call_read_handlers_single_error r ename hname e errh
      ("no '" ++ (ename ++ '.' :: hname).asString ++ "' handler") exit0
      hdot hexp hcall
    exact ⟨by simp [hmain.1], by simp [hmain.1], hmain.2⟩
  · intro hh hl hv
    have hcall : call_read_handler e hname false errh =
        { ret := -22, out := "",
          errh := { nerrors := errh.nerrors + 1,
                    msgs := errh.msgs ++
                      ["no '" ++ (ename ++ '.' :: hname).asString ++ "' handler"] } } := by
      simp [call_read_handler, hl, hv, hfull, errError]
    have hmain := call_read_handlers_single_error r ename hname e errh
      ("no '" ++ (ename ++ '.' :: hname).asString ++ "' handler") exit0
      hdot hexp hcall
    exact ⟨by simp [hmain.1], by simp [hmain.1], hmain.2⟩
  · intro hh hl hv hr
    have hcall : call_read_handler e hname false errh =
        { ret := -22, out := "",
          errh := { nerrors := errh.nerrors + 1,
                    msgs := errh.msgs ++
                      ["'" ++ (ename ++ '.' :: hname).asString ++ "' is a write handler"] } } := by
      simp [call_read_handler, hl, hv, hr, hfull, errError]
    have hmain := call_read_handlers_single_error r ename hname e errh
      ("'" ++ (ename ++ '.' :: hname).asString ++ "' is a write handler") exit0
      hdot hexp hcall
    exact ⟨by simp [hmain.1], by simp [hmain.1], hmain.2⟩

/-- Witness for C5: on the sample router the request `a1.nope` reports
`no 'a1.nope' handler` and forces exit value 1. -/
theorem driver_read_handler_errors_witness :
    ("no '" ++ (['a', '1'] ++ '.' :: ['n', 'o', 'p', 'e']).asString ++ "' handler") ∈
      (call_read_handlers sampleRouter [['a', '1'] ++ '.' :: ['n', 'o', 'p', 'e']]
        { nerrors := 0, msgs := [] }).2.2.msgs ∧
    (call_read_handlers sampleRouter [['a', '1'] ++ '.' :: ['n', 'o', 'p', 'e']]
      { nerrors := 0, msgs := [] }).1 = -1 ∧
    handlers_exit_value sampleRouter [['a', '1'] ++ '.' :: ['n', 'o', 'p', 'e']]
      { nerrors := 0, msgs := [] } 0 = 1 :=
  (driver_read_handler_errors sampleRouter ['a', '1'] ['n', 'o', 'p', 'e']
    idleElem { nerrors := 0, msgs := [] } 0 (by decide) (by decide) rfl).1 rfl
